import Mathlib

/-!
Verification of the example FastAPI CRUD application (`example_app.py`,
repository `fastapi-radar`).

The file below is a shallow embedding of the application's data model and
request handlers.  A database state is a pair of lists (the `products` and
`users` tables); each HTTP handler becomes a pure function from the request
data and the current database state to a response together with the new
database state.  Machine-level details that no claim depends on (SQL engine,
timestamps' actual clock, the Radar middleware) are modelled abstractly:
timestamps are naturals passed in as a `now` argument, SQL `Float` prices are
rationals (no arithmetic is ever performed on them).
-/

namespace ExampleApp

/-- ORM model `Product` (table `products`): identifier, name, optional
description, price, in-stock flag, creation timestamp. -/
structure Product where
  id : Nat
  name : String
  description : Option String
  price : Rat
  in_stock : Bool
  created_at : Nat
  deriving Repr, DecidableEq

/-- ORM model `User` (table `users`): identifier, unique username, unique
email, optional full name, creation timestamp. -/
structure User where
  id : Nat
  username : String
  email : String
  full_name : Option String
  created_at : Nat
  deriving Repr, DecidableEq

/-- The database state: the two tables declared in the file. -/
structure DB where
  products : List Product
  users : List User
  deriving Repr, DecidableEq

/-- Pydantic request model `ProductCreate`; `description` defaults to `None`
and `in_stock` defaults to `True`. -/
structure ProductCreate where
  name : String
  description : Option String := none
  price : Rat
  in_stock : Bool := true
  deriving Repr, DecidableEq

/-- Pydantic request model `UserCreate`; `full_name` defaults to `None`. -/
structure UserCreate where
  username : String
  email : String
  full_name : Option String := none
  deriving Repr, DecidableEq

/-- Response bodies produced by the handlers. -/
inductive Body where
  | product (p : Product)
  | products (ps : List Product)
  | user (u : User)
  | users (us : List User)
  | json (fields : List (String × String))
  | slowQueryInfo (message : String) (product_count : Nat)
  deriving Repr, DecidableEq

/-- A handler outcome: a normal response with an HTTP status code, an
`HTTPException` carrying a status code and detail string, or an uncaught
exception (the `ValueError` of the `/error` endpoint). -/
inductive Response where
  | ok (status : Nat) (body : Body)
  | httpError (status : Nat) (detail : String)
  | raised (msg : String)
  deriving Repr, DecidableEq

/-- Primary-key assignment on insert: SQLite hands out a fresh rowid, one
larger than the largest id present. -/
def nextProductId (db : DB) : Nat :=
  (db.products.map (fun p => p.id)).foldr max 0 + 1

/-- Primary-key assignment on insert for the `users` table. -/
def nextUserId (db : DB) : Nat :=
  (db.users.map (fun u => u.id)).foldr max 0 + 1

/-- The filter used by `list_products` when `in_stock_only` is set.  The
Python source writes `Product.in_stock is True`: an identity comparison
between the column object and `True`, which evaluates to the constant
`False`; SQLAlchemy renders the constant as `WHERE false`, so the predicate
holds of no row. -/
def inStockIsTrueFilter : Product → Bool := fun _ => false

/-- Handler for `GET /products`: list all products with pagination.  `skip`/`limit` are
already validated by the framework (see `validPagination`/`step`). -/
def list_products (skip limit : Nat) (in_stock_only : Bool) (db : DB) :
    Response × DB :=
  let query := db.products
  let query := if in_stock_only then query.filter inStockIsTrueFilter else query
  (Response.ok 200 (Body.products ((query.drop skip).take limit)), db)

/-- Handler for `GET /products/<product_id>`: get a specific product by id, 404 when
absent. -/
def get_product (product_id : Nat) (db : DB) : Response × DB :=
  match db.products.find? (fun p => p.id == product_id) with
  | none => (Response.httpError 404 "Product not found", db)
  | some p => (Response.ok 200 (Body.product p), db)

/-- Handler for `POST /products` (status 201): insert a product built from the request
body, with a fresh id and the current timestamp. -/
def create_product (product : ProductCreate) (now : Nat) (db : DB) :
    Response × DB :=
  let db_product : Product :=
    { id := nextProductId db
      name := product.name
      description := product.description
      price := product.price
      in_stock := product.in_stock
      created_at := now }
  (Response.ok 201 (Body.product db_product),
   { db with products := db.products ++ [db_product] })

/-- Application of `setattr` for every `ProductCreate` field onto an existing row, as in
`update_product`'s loop over `product.dict().items()`. -/
def applyProductCreate (product : ProductCreate) (p : Product) : Product :=
  { p with
      name := product.name
      description := product.description
      price := product.price
      in_stock := product.in_stock }

/-- Replace the first row whose id matches (the ORM object returned by
`.first()` is the one mutated and flushed). -/
def replaceFirstProduct (product_id : Nat) (p' : Product) :
    List Product → List Product
  | [] => []
  | q :: qs =>
      if q.id == product_id then p' :: qs
      else q :: replaceFirstProduct product_id p' qs

/-- Handler for `PUT /products/<product_id>`: update an existing product, 404 when
absent. -/
def update_product (product_id : Nat) (product : ProductCreate) (db : DB) :
    Response × DB :=
  match db.products.find? (fun p => p.id == product_id) with
  | none => (Response.httpError 404 "Product not found", db)
  | some db_product =>
      let p' := applyProductCreate product db_product
      (Response.ok 200 (Body.product p'),
       { db with products := replaceFirstProduct product_id p' db.products })

/-- Handler for `DELETE /products/<product_id>`: delete the product found by
`.first()` (the first row whose id matches), 404 when absent. -/
def delete_product (product_id : Nat) (db : DB) : Response × DB :=
  match db.products.find? (fun p => p.id == product_id) with
  | none => (Response.httpError 404 "Product not found", db)
  | some _ =>
      (Response.ok 200 (Body.json [("message", "Product deleted successfully")]),
       { db with products := db.products.eraseP (fun p => p.id == product_id) })

/-- Handler for `GET /users`: list all users with pagination. -/
def list_users (skip limit : Nat) (db : DB) : Response × DB :=
  (Response.ok 200 (Body.users ((db.users.drop skip).take limit)), db)

/-- Handler for `GET /users/<user_id>`: get a specific user by id, 404 when
absent. -/
def get_user (user_id : Nat) (db : DB) : Response × DB :=
  match db.users.find? (fun u => u.id == user_id) with
  | none => (Response.httpError 404 "User not found", db)
  | some u => (Response.ok 200 (Body.user u), db)

/-- The duplicate check of `create_user`:
`(User.username == user.username) | (User.email == user.email)`. -/
def duplicateUser (user : UserCreate) (u : User) : Bool :=
  u.username == user.username || u.email == user.email

/-- Handler for `POST /users` (status 201): reject with a 400 `HTTPException` when a
stored user shares the username or the email, otherwise insert. -/
def create_user (user : UserCreate) (now : Nat) (db : DB) : Response × DB :=
  match db.users.find? (duplicateUser user) with
  | some _ =>
      (Response.httpError 400 "User with this username or email already exists",
       db)
  | none =>
      let db_user : User :=
        { id := nextUserId db
          username := user.username
          email := user.email
          full_name := user.full_name
          created_at := now }
      (Response.ok 201 (Body.user db_user),
       { db with users := db.users ++ [db_user] })

/-- Handler for `GET /`: the root endpoint. -/
def root_endpoint : Response :=
  Response.ok 200
    (Body.json
      [("message", "Welcome to the Example API"),
       ("dashboard", "Visit /__radar to see the debugging dashboard")])

/-- Handler for `GET /slow-query`: reads all products (and performs extra read-only user
lookups); the `time.sleep` is a real-time effect outside the embedding. -/
def slow_query_example (db : DB) : Response × DB :=
  (Response.ok 200
    (Body.slowQueryInfo ("This endpoint performs slow queries")
      db.products.length), db)

/-- Handler for `GET /error`: raises a `ValueError` unconditionally. -/
def trigger_error : Response :=
  Response.raised ("This is an example error for demonstration purposes")

/-- Handler for `GET /health`: the health check endpoint. -/
def health_check : Response :=
  Response.ok 200 (Body.json [("status", "healthy")])

/-- HTTP methods used by the application. -/
inductive Method where
  | GET | POST | PUT | DELETE
  deriving Repr, DecidableEq

/-- The path patterns of the application's routes. -/
inductive RoutePath where
  | root
  | products
  | productsId
  | users
  | usersId
  | slowQuery
  | errorPath
  | health
  deriving Repr, DecidableEq

/-- The routing table: one entry per `@app.<method>` decorator in the file. -/
def routes : List (Method × RoutePath) :=
  [(Method.GET, RoutePath.root),
   (Method.GET, RoutePath.products),
   (Method.GET, RoutePath.productsId),
   (Method.POST, RoutePath.products),
   (Method.PUT, RoutePath.productsId),
   (Method.DELETE, RoutePath.productsId),
   (Method.GET, RoutePath.users),
   (Method.GET, RoutePath.usersId),
   (Method.POST, RoutePath.users),
   (Method.GET, RoutePath.slowQuery),
   (Method.GET, RoutePath.errorPath),
   (Method.GET, RoutePath.health)]

/-- A request to one of the application's routes, with its parsed inputs.
`skip`/`limit` are integers as sent by the client, validated in `step`;
`now` is the timestamp the server would read from the clock. -/
inductive Request where
  | root
  | listProducts (skip limit : Int) (in_stock_only : Bool)
  | getProduct (product_id : Nat)
  | createProduct (product : ProductCreate) (now : Nat)
  | updateProduct (product_id : Nat) (product : ProductCreate)
  | deleteProduct (product_id : Nat)
  | listUsers (skip limit : Int)
  | getUser (user_id : Nat)
  | createUser (user : UserCreate) (now : Nat)
  | slowQuery
  | errorEndpoint
  | health
  deriving Repr, DecidableEq

/-- FastAPI's range validation of the query parameters:
`skip: int = Query(0, ge=0)` and `limit: int = Query(10, ge=1, le=100)`.
Out-of-range values are rejected before the handler runs. -/
def validPagination (skip limit : Int) : Bool :=
  decide (0 ≤ skip) && decide (1 ≤ limit) && decide (limit ≤ 100)

/-- Dispatch of a request to its handler, with the framework's query
parameter validation (a 422 response when it fails). -/
def step (r : Request) (db : DB) : Response × DB :=
  match r with
  | Request.root => (root_endpoint, db)
  | Request.listProducts skip limit in_stock_only =>
      if validPagination skip limit then
        list_products skip.toNat limit.toNat in_stock_only db
      else (Response.httpError 422 "validation error", db)
  | Request.getProduct product_id => get_product product_id db
  | Request.createProduct product now => create_product product now db
  | Request.updateProduct product_id product =>
      update_product product_id product db
  | Request.deleteProduct product_id => delete_product product_id db
  | Request.listUsers skip limit =>
      if validPagination skip limit then
        list_users skip.toNat limit.toNat db
      else (Response.httpError 422 "validation error", db)
  | Request.getUser user_id => get_user user_id db
  | Request.createUser user now => create_user user now db
  | Request.slowQuery => slow_query_example db
  | Request.errorEndpoint => (trigger_error, db)
  | Request.health => (health_check, db)

/-- The requests handled by a product endpoint. -/
def isProductOp : Request → Bool
  | Request.listProducts .. => true
  | Request.getProduct .. => true
  | Request.createProduct .. => true
  | Request.updateProduct .. => true
  | Request.deleteProduct .. => true
  | _ => false

/-- The requests handled by a user endpoint. -/
def isUserOp : Request → Bool
  | Request.listUsers .. => true
  | Request.getUser .. => true
  | Request.createUser .. => true
  | _ => false

/-- The uniqueness invariant declared on the `users` table: no two stored
users share a username and no two share an email. -/
def usersUnique (db : DB) : Prop :=
  db.users.Pairwise (fun u v => u.username ≠ v.username ∧ u.email ≠ v.email)

/-- Number of table rows carried by a response. -/
def responseRows : Response → Nat
  | Response.ok _ (Body.products ps) => ps.length
  | Response.ok _ (Body.users us) => us.length
  | _ => 0

/-- A concrete product row, used to evaluate the theorems below on a
concrete state (mirrors the sample data of the `__main__` block). -/
def sampleProduct : Product :=
  { id := 1, name := "Laptop", description := some ("High-performance laptop"),
    price := 5, in_stock := true, created_at := 0 }

/-- A second concrete product row. -/
def sampleProduct2 : Product :=
  { id := 2, name := "Mouse", description := some ("Wireless mouse"),
    price := 3, in_stock := true, created_at := 0 }

/-- A concrete user row. -/
def sampleUser : User :=
  { id := 1, username := "johndoe", email := "john@example.com",
    full_name := some ("John Doe"), created_at := 0 }

/-- A concrete database state with two products and one user. -/
def sampleDB : DB :=
  { products := [sampleProduct, sampleProduct2], users := [sampleUser] }

/-- A concrete create-user request body with a fresh username and email. -/
def sampleUserCreate : UserCreate :=
  { username := "janedoe", email := "jane@example.com",
    full_name := some ("Jane Doe") }

/-- C2: for every database state and every list-products request with
`in_stock_only` set to true, `list_products` returns the empty list: the
stock filter condition `Product.in_stock is True` evaluates to the constant
`False`, so no row satisfies it regardless of the products stored. -/
theorem list_products_in_stock_only_empty (skip limit : Nat) (db : DB) :
    list_products skip limit true db =
      (Response.ok 200 (Body.products []), db) := by
  have h : db.products.filter inStockIsTrueFilter = [] := by
    simp [inStockIsTrueFilter]
  simp [list_products, h]

/-- C7: every request to the `/error` endpoint raises an unhandled
`ValueError`, never returns a normal response, and leaves the database
unchanged, regardless of the database state. -/
theorem trigger_error_always_raises (db : DB) :
    (step Request.errorEndpoint db).1 =
        Response.raised ("This is an example error for demonstration purposes") ∧
      (step Request.errorEndpoint db).2 = db ∧
      ∀ status body, (step Request.errorEndpoint db).1 ≠ Response.ok status body := by
  refine ⟨rfl, rfl, ?_⟩
  intro status body h
  simp [step, trigger_error] at h

/-- C10: `create_product` never fails: for every well-typed request it adds
exactly one product whose `name`, `description`, `price` and `in_stock`
fields equal those of the request body, leaves the users table unchanged,
returns that product with status 201; and in the `ProductCreate` request
model `description` defaults to none and `in_stock` defaults to true. -/
theorem create_product_total_spec (product : ProductCreate) (now : Nat) (db : DB) :
    ∃ p : Product,
      (create_product product now db).1 = Response.ok 201 (Body.product p) ∧
      (create_product product now db).2.products = db.products ++ [p] ∧
      (create_product product now db).2.users = db.users ∧
      p.name = product.name ∧ p.description = product.description ∧
      p.price = product.price ∧ p.in_stock = product.in_stock ∧
      ∀ (n : String) (q : Rat),
        ({ name := n, price := q } : ProductCreate) =
          { name := n, description := none, price := q, in_stock := true } :=
  ⟨_, rfl, rfl, rfl, rfl, rfl, rfl, rfl, fun _ _ => rfl⟩

/-- C3 counterexample: the application does not expose an update endpoint
and a delete endpoint for the User resource — neither `PUT /users/id` nor
`DELETE /users/id` is in the routing table. -/
theorem user_update_delete_routes_missing :
    ¬((Method.PUT, RoutePath.usersId) ∈ routes ∧
      (Method.DELETE, RoutePath.usersId) ∈ routes) := by
  decide

/-- C3 (amended): the application exposes list, get, create, update and
delete endpoints for the Product resource, but only list, get and create for
the User resource: no update or delete endpoint exists for users. -/
theorem routes_surface :
    ((Method.GET, RoutePath.products) ∈ routes ∧
     (Method.GET, RoutePath.productsId) ∈ routes ∧
     (Method.POST, RoutePath.products) ∈ routes ∧
     (Method.PUT, RoutePath.productsId) ∈ routes ∧
     (Method.DELETE, RoutePath.productsId) ∈ routes) ∧
    ((Method.GET, RoutePath.users) ∈ routes ∧
     (Method.GET, RoutePath.usersId) ∈ routes ∧
     (Method.POST, RoutePath.users) ∈ routes) ∧
    (Method.PUT, RoutePath.usersId) ∉ routes ∧
    (Method.DELETE, RoutePath.usersId) ∉ routes := by
  decide

/-- C1: a create-user request whose username or email equals that of a user
already stored is rejected by `create_user` with an HTTP error status (400,
detail naming the conflict) and the database is unchanged: no user is
added. -/
theorem create_user_duplicate_conflict (user : UserCreate) (now : Nat) (db : DB)
    (h : ∃ u ∈ db.users, u.username = user.username ∨ u.email = user.email) :
    (create_user user now db).1 =
        Response.httpError 400 "User with this username or email already exists" ∧
      (create_user user now db).2 = db := by
  obtain ⟨u, hu, hdup⟩ := h
  have hsome : (db.users.find? (duplicateUser user)).isSome := by
    rw [List.find?_isSome]
    refine ⟨u, hu, ?_⟩
    simp only [duplicateUser, Bool.or_eq_true, beq_iff_eq]
    exact hdup
  obtain ⟨v, hv⟩ := Option.isSome_iff_exists.mp hsome
  simp [create_user, hv]

/-- C1 witness: a concrete duplicate-email request against a one-user
database is rejected with the 400 conflict response and the state is
unchanged. -/
theorem create_user_duplicate_conflict_witness :
    (∃ u ∈ ({ products := [],
              users := [{ id := 1, username := "johndoe",
                          email := "john@example.com",
                          full_name := some ("John Doe"),
                          created_at := 0 }] } : DB).users,
        u.username = "newname" ∨ u.email = "john@example.com") ∧
      (create_user { username := "newname", email := "john@example.com" } 5
          { products := [],
            users := [{ id := 1, username := "johndoe",
                        email := "john@example.com",
                        full_name := some ("John Doe"),
                        created_at := 0 }] }).1 =
        Response.httpError 400 "User with this username or email already exists" ∧
      (create_user { username := "newname", email := "john@example.com" } 5
          { products := [],
            users := [{ id := 1, username := "johndoe",
                        email := "john@example.com",
                        full_name := some ("John Doe"),
                        created_at := 0 }] }).2 =
        { products := [],
          users := [{ id := 1, username := "johndoe",
                      email := "john@example.com",
                      full_name := some ("John Doe"),
                      created_at := 0 }] } := by
  refine ⟨⟨_, List.mem_singleton.mpr rfl, Or.inr rfl⟩, ?_⟩
  exact create_user_duplicate_conflict _ 5 _
    ⟨_, List.mem_singleton.mpr rfl, Or.inr rfl⟩

theorem rows_le_limit_products (skip limit : Nat) (in_stock_only : Bool)
    (db : DB) :
    responseRows (list_products skip limit in_stock_only db).1 ≤ limit := by
  simp only [list_products, responseRows, List.length_take]
  exact Nat.min_le_left _ _

theorem rows_le_limit_users (skip limit : Nat) (db : DB) :
    responseRows (list_users skip limit db).1 ≤ limit := by
  simp only [list_users, responseRows, List.length_take]
  exact Nat.min_le_left _ _

/-- C4: for every handled list request, the pagination parameters satisfy
the declared range validation (`skip ≥ 0`, `1 ≤ limit ≤ 100`) and the
handler returns at most `limit` rows, skipping the first `skip` rows of the
table; in particular no handled list request returns more than 100 rows. -/
theorem list_pagination_bounds (skip limit : Int) (in_stock_only : Bool)
    (db : DB) (h : validPagination skip limit = true) :
    (0 ≤ skip ∧ 1 ≤ limit ∧ limit ≤ 100) ∧
      step (Request.listProducts skip limit in_stock_only) db =
        list_products skip.toNat limit.toNat in_stock_only db ∧
      step (Request.listUsers skip limit) db =
        list_users skip.toNat limit.toNat db ∧
      responseRows (step (Request.listProducts skip limit in_stock_only) db).1
          ≤ limit.toNat ∧
      responseRows (step (Request.listUsers skip limit) db).1 ≤ limit.toNat ∧
      limit.toNat ≤ 100 := by
  have hrange : 0 ≤ skip ∧ 1 ≤ limit ∧ limit ≤ 100 := by
    simpa [validPagination, and_assoc] using h
  have hp : step (Request.listProducts skip limit in_stock_only) db =
      list_products skip.toNat limit.toNat in_stock_only db := by
    simp [step, h]
  have hu : step (Request.listUsers skip limit) db =
      list_users skip.toNat limit.toNat db := by
    simp [step, h]
  refine ⟨hrange, hp, hu, ?_, ?_, ?_⟩
  · rw [hp]; exact rows_le_limit_products _ _ _ _
  · rw [hu]; exact rows_le_limit_users _ _ _
  · omega

/-- C4 witness: the theorem evaluated on the concrete request
`skip = 0, limit = 10` against `sampleDB`. -/
theorem list_pagination_bounds_witness :
    validPagination 0 10 = true ∧
      responseRows (step (Request.listProducts 0 10 false) sampleDB).1 ≤
        (10 : Int).toNat ∧
      responseRows (step (Request.listUsers 0 10) sampleDB).1 ≤
        (10 : Int).toNat ∧
      (10 : Int).toNat ≤ 100 := by
  have h := list_pagination_bounds 0 10 false sampleDB (by decide)
  exact ⟨by decide, h.2.2.2.1, h.2.2.2.2.1, h.2.2.2.2.2⟩

theorem get_product_eq_of_none {product_id : Nat} {db : DB}
    (h : db.products.find? (fun p => p.id == product_id) = none) :
    get_product product_id db =
      (Response.httpError 404 "Product not found", db) := by
  simp [get_product, h]

theorem get_product_eq_of_some {product_id : Nat} {db : DB} {p : Product}
    (h : db.products.find? (fun p => p.id == product_id) = some p) :
    get_product product_id db = (Response.ok 200 (Body.product p), db) := by
  simp [get_product, h]

theorem get_user_eq_of_none {user_id : Nat} {db : DB}
    (h : db.users.find? (fun u => u.id == user_id) = none) :
    get_user user_id db = (Response.httpError 404 "User not found", db) := by
  simp [get_user, h]

theorem get_user_eq_of_some {user_id : Nat} {db : DB} {u : User}
    (h : db.users.find? (fun u => u.id == user_id) = some u) :
    get_user user_id db = (Response.ok 200 (Body.user u), db) := by
  simp [get_user, h]

/-- C5: `get_product` (resp. `get_user`) answers 404 exactly when no product
(resp. user) with the requested identifier is stored; when such a row
exists, the handler returns a stored row with that identifier; in every case
the database state is unchanged. -/
theorem get_by_id_not_found_iff (product_id user_id : Nat) (db : DB) :
    ((get_product product_id db).1 =
        Response.httpError 404 "Product not found" ↔
      ¬∃ p ∈ db.products, p.id = product_id) ∧
    ((∃ p ∈ db.products, p.id = product_id) →
      ∃ p, p ∈ db.products ∧ p.id = product_id ∧
        (get_product product_id db).1 = Response.ok 200 (Body.product p)) ∧
    (get_product product_id db).2 = db ∧
    ((get_user user_id db).1 = Response.httpError 404 "User not found" ↔
      ¬∃ u ∈ db.users, u.id = user_id) ∧
    ((∃ u ∈ db.users, u.id = user_id) →
      ∃ u, u ∈ db.users ∧ u.id = user_id ∧
        (get_user user_id db).1 = Response.ok 200 (Body.user u)) ∧
    (get_user user_id db).2 = db := by
  have hmemp : (∃ p ∈ db.products, p.id = product_id) ↔
      (db.products.find? (fun p => p.id == product_id)).isSome = true := by
    rw [List.find?_isSome]
    simp
  have hmemu : (∃ u ∈ db.users, u.id = user_id) ↔
      (db.users.find? (fun u => u.id == user_id)).isSome = true := by
    rw [List.find?_isSome]
    simp
  refine ⟨?_, ?_, ?_, ?_, ?_, ?_⟩
  · cases hf : db.products.find? (fun p => p.id == product_id) with
    | none =>
        rw [get_product_eq_of_none hf]
        simp only [true_iff, hmemp, hf]
        simp
    | some p =>
        rw [get_product_eq_of_some hf]
        simp only [hmemp, hf]
        simp
  · intro hex
    obtain ⟨p, hf⟩ := Option.isSome_iff_exists.mp (hmemp.mp hex)
    exact ⟨p, List.mem_of_find?_eq_some hf,
      by simpa using List.find?_some hf,
      by rw [get_product_eq_of_some hf]⟩
  · cases hf : db.products.find? (fun p => p.id == product_id) with
    | none => rw [get_product_eq_of_none hf]
    | some p => rw [get_product_eq_of_some hf]
  · cases hf : db.users.find? (fun u => u.id == user_id) with
    | none =>
        rw [get_user_eq_of_none hf]
        simp only [true_iff, hmemu, hf]
        simp
    | some u =>
        rw [get_user_eq_of_some hf]
        simp only [hmemu, hf]
        simp
  · intro hex
    obtain ⟨u, hf⟩ := Option.isSome_iff_exists.mp (hmemu.mp hex)
    exact ⟨u, List.mem_of_find?_eq_some hf,
      by simpa using List.find?_some hf,
      by rw [get_user_eq_of_some hf]⟩
  · cases hf : db.users.find? (fun u => u.id == user_id) with
    | none => rw [get_user_eq_of_none hf]
    | some u => rw [get_user_eq_of_some hf]

/-- C5 witness: on `sampleDB`, product id 1 and user id 1 are found (and the
state is unchanged), while the 404 characterisation applies to id 99. -/
theorem get_by_id_not_found_iff_witness :
    ((∃ p ∈ sampleDB.products, p.id = 1) ∧
      ∃ p, p ∈ sampleDB.products ∧ p.id = 1 ∧
        (get_product 1 sampleDB).1 = Response.ok 200 (Body.product p)) ∧
      (get_product 99 sampleDB).1 = Response.httpError 404 "Product not found" ∧
      (get_user 1 sampleDB).2 = sampleDB := by
  have hex : ∃ p ∈ sampleDB.products, p.id = 1 :=
    ⟨sampleProduct, by simp [sampleDB], rfl⟩
  refine ⟨⟨hex, (get_by_id_not_found_iff 1 1 sampleDB).2.1 hex⟩, ?_, ?_⟩
  · exact ((get_by_id_not_found_iff 99 1 sampleDB).1).mpr (by decide)
  · exact (get_by_id_not_found_iff 1 1 sampleDB).2.2.2.2.2

theorem get_product_snd (product_id : Nat) (db : DB) :
    (get_product product_id db).2 = db := by
  cases hf : db.products.find? (fun p => p.id == product_id) with
  | none => rw [get_product_eq_of_none hf]
  | some p => rw [get_product_eq_of_some hf]

theorem get_user_snd (user_id : Nat) (db : DB) :
    (get_user user_id db).2 = db := by
  cases hf : db.users.find? (fun u => u.id == user_id) with
  | none => rw [get_user_eq_of_none hf]
  | some u => rw [get_user_eq_of_some hf]

theorem update_product_users (product_id : Nat) (product : ProductCreate)
    (db : DB) : (update_product product_id product db).2.users = db.users := by
  cases hf : db.products.find? (fun p => p.id == product_id) with
  | none => simp [update_product, hf]
  | some p => simp [update_product, hf]

theorem delete_product_users (product_id : Nat) (db : DB) :
    (delete_product product_id db).2.users = db.users := by
  cases hf : db.products.find? (fun p => p.id == product_id) with
  | none => simp [delete_product, hf]
  | some p => simp [delete_product, hf]

theorem create_user_products (user : UserCreate) (now : Nat) (db : DB) :
    (create_user user now db).2.products = db.products := by
  cases hf : db.users.find? (duplicateUser user) with
  | none => simp [create_user, hf]
  | some u => simp [create_user, hf]

theorem step_users_frame (r : Request) (db : DB) (h : isProductOp r = true) :
    (step r db).2.users = db.users := by
  cases r with
  | listProducts skip limit in_stock_only =>
      by_cases hv : validPagination skip limit = true
      · simp [step, hv, list_products]
      · simp [step, hv]
  | getProduct product_id => simp [step, get_product_snd]
  | createProduct product now => simp [step, create_product]
  | updateProduct product_id product =>
      simpa [step] using update_product_users product_id product db
  | deleteProduct product_id =>
      simpa [step] using delete_product_users product_id db
  | root => simp [isProductOp] at h
  | listUsers skip limit => simp [isProductOp] at h
  | getUser user_id => simp [isProductOp] at h
  | createUser user now => simp [isProductOp] at h
  | slowQuery => simp [isProductOp] at h
  | errorEndpoint => simp [isProductOp] at h
  | health => simp [isProductOp] at h

theorem step_products_frame (r : Request) (db : DB) (h : isUserOp r = true) :
    (step r db).2.products = db.products := by
  cases r with
  | listUsers skip limit =>
      by_cases hv : validPagination skip limit = true
      · simp [step, hv, list_users]
      · simp [step, hv]
  | getUser user_id => simp [step, get_user_snd]
  | createUser user now => simpa [step] using create_user_products user now db
  | root => simp [isUserOp] at h
  | listProducts skip limit in_stock_only => simp [isUserOp] at h
  | getProduct product_id => simp [isUserOp] at h
  | createProduct product now => simp [isUserOp] at h
  | updateProduct product_id product => simp [isUserOp] at h
  | deleteProduct product_id => simp [isUserOp] at h
  | slowQuery => simp [isUserOp] at h
  | errorEndpoint => simp [isUserOp] at h
  | health => simp [isUserOp] at h

/-- C8: the two entities are unrelated — every product operation leaves the
users table unchanged and every user operation leaves the products table
unchanged. -/
theorem product_user_frame_separation (r : Request) (db : DB) :
    (isProductOp r = true → (step r db).2.users = db.users) ∧
      (isUserOp r = true → (step r db).2.products = db.products) :=
  ⟨step_users_frame r db, step_products_frame r db⟩

/-- C8 witness: a concrete product deletion keeps the users of `sampleDB`,
and a concrete user creation keeps its products. -/
theorem product_user_frame_separation_witness :
    isProductOp (Request.deleteProduct 1) = true ∧
      (step (Request.deleteProduct 1) sampleDB).2.users = sampleDB.users ∧
      isUserOp (Request.createUser sampleUserCreate 3) = true ∧
      (step (Request.createUser sampleUserCreate 3) sampleDB).2.products =
        sampleDB.products :=
  ⟨rfl, (product_user_frame_separation (Request.deleteProduct 1) sampleDB).1 rfl,
   rfl,
   (product_user_frame_separation
      (Request.createUser sampleUserCreate 3) sampleDB).2 rfl⟩

/-- C6: every handled request preserves the invariant that no two stored
users share a username and no two stored users share an email. -/
theorem user_uniqueness_invariant_preserved (r : Request) (db : DB)
    (h : usersUnique db) : usersUnique (step r db).2 := by
  have frame : ∀ r' : Request, (step r' db).2.users = db.users →
      usersUnique (step r' db).2 := by
    intro r' he
    simp only [usersUnique] at h ⊢
    rw [he]
    exact h
  cases r with
  | root => exact frame _ rfl
  | listProducts skip limit in_stock_only =>
      exact frame _ (step_users_frame _ db rfl)
  | getProduct product_id => exact frame _ (step_users_frame _ db rfl)
  | createProduct product now => exact frame _ (step_users_frame _ db rfl)
  | updateProduct product_id product =>
      exact frame _ (step_users_frame _ db rfl)
  | deleteProduct product_id => exact frame _ (step_users_frame _ db rfl)
  | listUsers skip limit =>
      by_cases hv : validPagination skip limit = true
      · exact frame _ (by simp [step, hv, list_users])
      · exact frame _ (by simp [step, hv])
  | getUser user_id => exact frame _ (by simp [step, get_user_snd])
  | slowQuery => exact frame _ rfl
  | errorEndpoint => exact frame _ rfl
  | health => exact frame _ rfl
  | createUser user now =>
      cases hf : db.users.find? (duplicateUser user) with
      | some u => exact frame _ (by simp [step, create_user, hf])
      | none =>
          have hall : ∀ u ∈ db.users, ¬duplicateUser user u = true :=
            List.find?_eq_none.mp hf
          have husers : (step (Request.createUser user now) db).2.users =
              db.users ++
                [{ id := nextUserId db, username := user.username,
                   email := user.email, full_name := user.full_name,
                   created_at := now }] := by
            simp [step, create_user, hf]
          simp only [usersUnique] at h ⊢
          rw [husers]
          refine List.pairwise_append.mpr ⟨h, List.pairwise_singleton _ _, ?_⟩
          intro a ha b hb
          have hb' : b = { id := nextUserId db, username := user.username,
                           email := user.email, full_name := user.full_name,
                           created_at := now } := by simpa using hb
          subst hb'
          have hna := hall a ha
          simp only [duplicateUser, Bool.or_eq_true, beq_iff_eq, not_or] at hna
          exact ⟨hna.1, hna.2⟩

/-- C6 witness: `sampleDB` satisfies the uniqueness invariant and still does
after a concrete create-user request is handled. -/
theorem user_uniqueness_invariant_preserved_witness :
    usersUnique sampleDB ∧
      usersUnique (step (Request.createUser sampleUserCreate 3) sampleDB).2 := by
  have hu : usersUnique sampleDB := by
    simp [usersUnique, sampleDB]
  exact ⟨hu,
    user_uniqueness_invariant_preserved
      (Request.createUser sampleUserCreate 3) sampleDB hu⟩

/-- C9: deleting an existing product removes exactly that row (every product
row before and after it is kept, in order), leaves the users table
unchanged, and returns the message "Product deleted successfully"; deleting
a missing product answers 404 and leaves the whole state unchanged. -/
theorem delete_product_spec (product_id : Nat) (db : DB) :
    ((∃ p ∈ db.products, p.id = product_id) →
      ∃ p l₁ l₂,
        db.products = l₁ ++ p :: l₂ ∧ p.id = product_id ∧
        (∀ q ∈ l₁, q.id ≠ product_id) ∧
        (delete_product product_id db).2.products = l₁ ++ l₂ ∧
        (delete_product product_id db).2.users = db.users ∧
        (delete_product product_id db).1 =
          Response.ok 200
            (Body.json [("message", "Product deleted successfully")])) ∧
    ((¬∃ p ∈ db.products, p.id = product_id) →
      delete_product product_id db =
        (Response.httpError 404 "Product not found", db)) := by
  constructor
  · rintro ⟨p, hp, hid⟩
    have hpid : (fun q : Product => q.id == product_id) p = true := by
      simpa using hid
    obtain ⟨a, l₁, l₂, hl₁, hpa, hsplit, herase⟩ :=
      @List.exists_of_eraseP Product (fun q => q.id == product_id)
        db.products p hp hpid
    have hsome : (db.products.find? (fun q => q.id == product_id)).isSome := by
      rw [List.find?_isSome]
      exact ⟨p, hp, hpid⟩
    obtain ⟨b, hb⟩ := Option.isSome_iff_exists.mp hsome
    refine ⟨a, l₁, l₂, hsplit, by simpa using hpa, ?_, ?_, ?_, ?_⟩
    · intro q hq
      simpa using hl₁ q hq
    · simp [delete_product, hb, herase]
    · simp [delete_product, hb]
    · simp [delete_product, hb]
  · intro hne
    have hf : db.products.find? (fun q => q.id == product_id) = none := by
      rw [List.find?_eq_none]
      intro x hx
      simp only [beq_iff_eq]
      exact fun he => hne ⟨x, hx, he⟩
    simp [delete_product, hf]

/-- C9 witness: deleting product 2 of `sampleDB` removes exactly that row
and answers the success message; deleting the absent id 99 answers 404 with
the state unchanged. -/
theorem delete_product_spec_witness :
    (∃ p ∈ sampleDB.products, p.id = 2) ∧
      (∃ p l₁ l₂,
        sampleDB.products = l₁ ++ p :: l₂ ∧ p.id = 2 ∧
        (∀ q ∈ l₁, q.id ≠ 2) ∧
        (delete_product 2 sampleDB).2.products = l₁ ++ l₂ ∧
        (delete_product 2 sampleDB).2.users = sampleDB.users ∧
        (delete_product 2 sampleDB).1 =
          Response.ok 200
            (Body.json [("message", "Product deleted successfully")])) ∧
      delete_product 99 sampleDB =
        (Response.httpError 404 "Product not found", sampleDB) := by
  have hex : ∃ p ∈ sampleDB.products, p.id = 2 :=
    ⟨sampleProduct2, by simp [sampleDB], rfl⟩
  exact ⟨hex, (delete_product_spec 2 sampleDB).1 hex,
    (delete_product_spec 99 sampleDB).2 (by decide)⟩

end ExampleApp
